import Mathlib

/-!
# Verification of the discord-communication-assistant coordination core

Shallow embedding, in Lean 4, of the coordination logic of the
discord-communication-assistant repository, together with proofs that settle
the specification claims C1–C10.

Each definition is translated from the Python source named in its doc
comment.  External collaborators (database, Discord client, AI vendor HTTP
clients) are passed in as explicit function arguments ("oracles"), and Python
exceptions are modelled with `Except` over an explicit error type mirroring
the repository's exception hierarchy.
-/

/-- Python exception taxonomy of the repository (`src/ai/base.py`,
`src/ai/summarizer.py`, `src/bot/notifier.py`).  `providerNotConfigured`,
`quotaExceeded`, `connectionError`, `responseError` and `providerError`
correspond to `AIProviderNotConfiguredError`, `AIQuotaExceededError`,
`AIConnectionError`, `AIResponseError` and the base `AIProviderError`;
`summaryError` to `SummaryError`; `notificationError` to `NotificationError`;
`keyError`/`other` to plain Python exceptions. -/
inductive PyError where
  | providerNotConfigured (purpose : String) (provider : Option String)
  | quotaExceeded (msg : String)
  | connectionError (msg : String)
  | responseError (msg : String)
  | providerError (msg : String)
  | summaryError (msg : String)
  | notificationError (msg : String)
  | keyError (msg : String)
  | other (msg : String)
deriving DecidableEq

/-- `isinstance(e, AIProviderError)`: `AIProviderNotConfiguredError`,
`AIQuotaExceededError`, `AIConnectionError`, `AIResponseError` and the base
class are subclasses of `AIProviderError` (`src/ai/base.py`); `SummaryError`,
`NotificationError`, `KeyError` and other exceptions are not. -/
def PyError.isAIProviderError : PyError → Bool
  | .providerNotConfigured _ _ => true
  | .quotaExceeded _ => true
  | .connectionError _ => true
  | .responseError _ => true
  | .providerError _ => true
  | .summaryError _ => false
  | .notificationError _ => false
  | .keyError _ => false
  | .other _ => false

/-- `str(e)` for the modelled exceptions, following
`AIProviderError._format_message` (`src/ai/base.py`). -/
def PyError.message : PyError → String
  | .providerNotConfigured purpose none => "Provider not configured for purpose: " ++ purpose
  | .providerNotConfigured purpose (some p) =>
      "[" ++ p ++ "] Provider not configured for purpose: " ++ purpose
  | .quotaExceeded m => m
  | .connectionError m => m
  | .responseError m => m
  | .providerError m => m
  | .summaryError m => m
  | .notificationError m => m
  | .keyError m => m
  | .other m => m

namespace TokenCounter

/-- A chat-history entry, the `dict[str, str]` elements of the `context`
argument of `trim_context` (`src/ai/token_counter.py`).  An entry whose
Python dict lacks the `role` key behaves like any role different from
`"system"`, so modelling `role` as a plain `String` loses nothing. -/
structure ChatMsg where
  role : String
  content : String
deriving DecidableEq

/-- `estimate_tokens` (`src/ai/token_counter.py`, lines 18–22):
`0` for the empty string, otherwise `math.ceil(len(text) / 4)`
with `DEFAULT_CHARS_PER_TOKEN = 4`. -/
def estimate_tokens (text : String) : Nat :=
  if text.isEmpty then 0 else (text.length + 3) / 4

/-- `estimate_message_tokens` (`src/ai/token_counter.py`, lines 25–27). -/
def estimate_message_tokens (m : ChatMsg) : Nat :=
  estimate_tokens m.content

/-- Whether an entry is pinned: `msg.get("role") == "system"`. -/
def isSys (m : ChatMsg) : Bool := m.role == "system"

/-- Per-entry token costs `message_tokens` of `trim_context`. -/
def messageTokens (context : List ChatMsg) : List Int :=
  context.map (fun m => (estimate_message_tokens m : Int))

/-- The `while total_tokens > token_budget and len(non_system_indices) > 1`
loop of `trim_context` (`src/ai/token_counter.py`, lines 69–71): repeatedly
pop the front index and subtract its cost. -/
def trimLoop (budget : Int) (mt : List Int) : List Nat → Int → List Nat
  | i :: j :: rest, total =>
      if budget < total then trimLoop budget mt (j :: rest) (total - mt.getD i 0)
      else i :: j :: rest
  | l, _ => l

/-- `prompt_tokens + sum(message_tokens)` computed by `trim_context`. -/
def pretrimTotal (context : List ChatMsg) (prompt_text system_prompt : String) : Int :=
  (estimate_tokens prompt_text : Int) + (estimate_tokens system_prompt : Int) +
    (messageTokens context).sum

/-- `trim_context` (`src/ai/token_counter.py`, lines 50–77), translated
clause by clause: the `token_budget <= 0` guard, the within-budget early
return, the oldest-non-pinned drop loop over `non_system_indices`, and the
final keep-filter `[msg for i, msg in enumerate(context) if i in keep_indices]`
with `keep_indices` the system indices united with the surviving
non-system indices. -/
def trim_context (context : List ChatMsg) (token_budget : Int)
    (prompt_text : String := "") (system_prompt : String := "") : List ChatMsg :=
  if token_budget ≤ 0 then []
  else if pretrimTotal context prompt_text system_prompt ≤ token_budget then context
  else
    (context.enum.filter (fun p =>
        isSys p.2 ||
          (trimLoop token_budget (messageTokens context)
              ((context.enum.filter (fun q => !(isSys q.2))).map Prod.fst)
              (pretrimTotal context prompt_text system_prompt)).contains p.1)).map Prod.snd

/-! ### Reasoning helpers for `trim_context`

`trim_context` drops the surviving non-system indices from the front of the
(ascending) index list, so its output is the input with its first `d`
non-pinned entries removed, for the drop count `d` computed by the loop.
The definitions below express that count and that removal directly; the
bridge lemmas prove them equal to the faithful translation above. -/

/-- Remove the first `d` non-pinned entries of a history, keeping pinned
(`role = "system"`) entries in place. -/
def removeNonSys : Nat → List ChatMsg → List ChatMsg
  | 0, l => l
  | _ + 1, [] => []
  | d + 1, m :: l => if isSys m then m :: removeNonSys (d + 1) l else removeNonSys d l

/-- The number of entries the trim loop drops, phrased over the list of
non-pinned token costs. -/
def dropCount (budget : Int) : List Int → Int → Nat
  | t :: u :: rest, total =>
      if budget < total then dropCount budget (u :: rest) (total - t) + 1 else 0
  | _, _ => 0

/-- Token costs of the non-pinned entries, in order. -/
def nsTokens (context : List ChatMsg) : List Int :=
  (context.filter (fun m => !(isSys m))).map (fun m => (estimate_message_tokens m : Int))

/-- The index list `non_system_indices` over `enumFrom n`. -/
def nsIdxsFrom (n : Nat) (l : List ChatMsg) : List Nat :=
  ((List.enumFrom n l).filter (fun p => !(isSys p.2))).map Prod.fst

theorem nsIdxsFrom_cons (n : Nat) (m : ChatMsg) (l : List ChatMsg) :
    nsIdxsFrom n (m :: l) =
      if isSys m then nsIdxsFrom (n + 1) l else n :: nsIdxsFrom (n + 1) l := by
  by_cases h : isSys m <;> simp [nsIdxsFrom, List.enumFrom, h]

theorem le_fst_of_mem_enumFrom :
    ∀ (l : List ChatMsg) (k : Nat) (p : Nat × ChatMsg), p ∈ List.enumFrom k l → k ≤ p.1 := by
  intro l
  induction l with
  | nil => intro k p h; simp [List.enumFrom] at h
  | cons m t ih =>
    intro k p h
    rcases (by simpa [List.enumFrom] using h) with h' | h'
    · simp [h']
    · exact le_trans (Nat.le_succ k) (ih (k + 1) p h')

theorem le_of_mem_nsIdxsFrom (l : List ChatMsg) (n : Nat) (i : Nat)
    (h : i ∈ nsIdxsFrom n l) : n ≤ i := by
  rcases List.mem_map.mp h with ⟨p, hp, rfl⟩
  exact le_fst_of_mem_enumFrom l n p (List.mem_of_mem_filter hp)

/-- Bridge 1: the trim loop returns a suffix of the index list, dropping
exactly `dropCount` elements from the front. -/
theorem trimLoop_eq_drop (budget : Int) (mt : List Int) :
    ∀ (idxs : List Nat) (total : Int),
      trimLoop budget mt idxs total =
        idxs.drop (dropCount budget (idxs.map (fun i => mt.getD i 0)) total) := by
  intro idxs
  induction idxs with
  | nil => intro total; simp [trimLoop, dropCount]
  | cons i tl ih =>
    intro total
    cases tl with
    | nil => simp [trimLoop, dropCount]
    | cons j rest =>
      by_cases h : budget < total
      · simp only [trimLoop, dropCount, List.map, if_pos h]
        rw [ih (total - mt.getD i 0)]
        rfl
      · simp only [trimLoop, dropCount, List.map, if_neg h]
        rfl

theorem not_contains_of_forall_lt :
    ∀ (idxs : List Nat) (n : Nat), (∀ i ∈ idxs, n < i) → idxs.contains n = false := by
  intro idxs
  induction idxs with
  | nil => intro n _; rfl
  | cons i tl ih =>
    intro n h
    have hi : n < i := h i (by simp)
    have : (n == i) = false := by
      exact beq_eq_false_iff_ne.mpr (Nat.ne_of_lt hi)
    simp only [List.contains_cons, this, Bool.false_or]
    exact ih n (fun j hj => h j (by simp [hj]))

/-- `i in keep_indices` written with `List.contains` equals the same filter
written with decidable membership. -/
theorem filter_pred_eq (l : List (Nat × ChatMsg)) (keep : List Nat) :
    l.filter (fun p => isSys p.2 || keep.contains p.1)
      = l.filter (fun p => isSys p.2 || decide (p.1 ∈ keep)) := by
  apply List.filter_congr
  intro p _
  by_cases h : p.1 ∈ keep <;> simp [h]

/-- Bridge 2: filtering by "pinned or index survives" equals removing the
first `d` non-pinned entries. -/
theorem keepFilter_eq_removeNonSys :
    ∀ (l : List ChatMsg) (n d : Nat),
      ((List.enumFrom n l).filter
          (fun p => isSys p.2 || decide (p.1 ∈ (nsIdxsFrom n l).drop d))).map Prod.snd
        = removeNonSys d l := by
  intro l
  induction l with
  | nil => intro n d; cases d <;> rfl
  | cons m t ih =>
    intro n d
    have henum : List.enumFrom n (m :: t) = (n, m) :: List.enumFrom (n + 1) t := rfl
    by_cases hs : isSys m
    · rw [nsIdxsFrom_cons, if_pos hs, henum, List.filter_cons]
      simp only [hs, Bool.true_or, if_true, List.map_cons]
      rw [ih (n + 1) d]
      cases d with
      | zero => simp [removeNonSys]
      | succ e => simp [removeNonSys, hs]
    · have hsb : isSys m = false := by simpa using hs
      rw [nsIdxsFrom_cons, if_neg hs, henum, List.filter_cons]
      cases d with
      | zero =>
        have hcongr :
            (List.enumFrom (n + 1) t).filter
                (fun p => isSys p.2 || decide (p.1 = n ∨ p.1 ∈ nsIdxsFrom (n + 1) t))
              = (List.enumFrom (n + 1) t).filter
                (fun p => isSys p.2 || decide (p.1 ∈ nsIdxsFrom (n + 1) t)) := by
          apply List.filter_congr
          intro p hp
          have hge : n + 1 ≤ p.1 := le_fst_of_mem_enumFrom t (n + 1) p hp
          have hne : p.1 ≠ n := Nat.ne_of_gt hge
          simp [hne]
        simp only [List.drop_zero, hsb, Bool.false_or, List.mem_cons, true_or,
          decide_True, if_true]
        rw [List.map_cons, hcongr]
        have h0 := ih (n + 1) 0
        simp only [List.drop_zero] at h0
        rw [h0]
        simp [removeNonSys]
      | succ e =>
        have hnot : n ∉ (nsIdxsFrom (n + 1) t).drop e := by
          intro hmem
          exact absurd (le_of_mem_nsIdxsFrom t (n + 1) n (List.mem_of_mem_drop hmem))
            (by omega)
        simp only [List.drop_succ_cons, hsb, Bool.false_or, hnot, decide_False]
        rw [if_neg (by simp)]
        rw [ih (n + 1) e]
        simp [removeNonSys, hsb]

/-- Bridge 3: looking the surviving indices up in the full token list yields
exactly the non-pinned token costs. -/
theorem nsIdxs_map_getD :
    ∀ (l pre : List ChatMsg),
      (nsIdxsFrom pre.length l).map (fun i => (messageTokens (pre ++ l)).getD i 0)
        = nsTokens l := by
  intro l
  induction l with
  | nil => intro pre; simp [nsIdxsFrom, nsTokens, List.enumFrom]
  | cons m t ih =>
    intro pre
    have happ : pre ++ m :: t = (pre ++ [m]) ++ t := by simp
    have hlen : (pre ++ [m]).length = pre.length + 1 := by simp
    by_cases hs : isSys m
    · rw [nsIdxsFrom_cons, if_pos hs]
      have := ih (pre ++ [m])
      rw [hlen, happ] at *
      rw [this]
      simp [nsTokens, hs]
    · rw [nsIdxsFrom_cons, if_neg hs]
      rw [List.map_cons]
      have hhead : (messageTokens (pre ++ m :: t)).getD pre.length 0
          = (estimate_message_tokens m : Int) := by
        have : messageTokens (pre ++ m :: t) = messageTokens pre ++ messageTokens (m :: t) := by
          simp [messageTokens]
        rw [this]
        rw [List.getD_append_right]
        · simp [messageTokens]
        · simp [messageTokens]
      rw [hhead]
      have := ih (pre ++ [m])
      rw [hlen, happ] at *
      rw [this]
      simp [nsTokens, hs]

theorem removeNonSys_zero (l : List ChatMsg) : removeNonSys 0 l = l := by
  cases l <;> simp [removeNonSys]

theorem removeNonSys_sublist : ∀ (d : Nat) (l : List ChatMsg), (removeNonSys d l).Sublist l := by
  intro d l
  induction l generalizing d with
  | nil => cases d <;> simp [removeNonSys]
  | cons m t ih =>
    cases d with
    | zero => simp [removeNonSys]
    | succ e =>
      by_cases hs : isSys m
      · simpa [removeNonSys, hs] using (ih (e + 1)).cons₂ m
      · simpa [removeNonSys, hs] using (ih e).cons m

theorem removeNonSys_filter_sys :
    ∀ (d : Nat) (l : List ChatMsg), (removeNonSys d l).filter isSys = l.filter isSys := by
  intro d l
  induction l generalizing d with
  | nil => cases d <;> simp [removeNonSys]
  | cons m t ih =>
    cases d with
    | zero => simp [removeNonSys]
    | succ e =>
      by_cases hs : isSys m
      · simp [removeNonSys, hs, List.filter_cons, ih (e + 1)]
      · have hsb : isSys m = false := by simpa using hs
        simp [removeNonSys, hsb, List.filter_cons, ih e]

theorem removeNonSys_filter_nonsys :
    ∀ (d : Nat) (l : List ChatMsg),
      (removeNonSys d l).filter (fun m => !(isSys m))
        = (l.filter (fun m => !(isSys m))).drop d := by
  intro d l
  induction l generalizing d with
  | nil => cases d <;> simp [removeNonSys]
  | cons m t ih =>
    cases d with
    | zero => simp [removeNonSys]
    | succ e =>
      by_cases hs : isSys m
      · simp [removeNonSys, hs, List.filter_cons, ih (e + 1)]
      · have hsb : isSys m = false := by simpa using hs
        simp [removeNonSys, hsb, List.filter_cons, ih e]

theorem sum_map_partition (g : ChatMsg → Int) :
    ∀ l : List ChatMsg,
      (l.map g).sum = ((l.filter isSys).map g).sum
        + ((l.filter (fun m => !(isSys m))).map g).sum := by
  intro l
  induction l with
  | nil => simp
  | cons m t ih =>
    by_cases hs : isSys m
    · simp only [List.map_cons, List.sum_cons, List.filter_cons, hs, Bool.not_true, ih]
      simp
      ring
    · have hsb : isSys m = false := by simpa using hs
      simp only [List.map_cons, List.sum_cons, List.filter_cons, hsb, Bool.not_false, ih]
      simp
      ring

theorem dropCount_lt_length (b : Int) :
    ∀ (ts : List Int) (total : Int), ts ≠ [] → dropCount b ts total < ts.length := by
  intro ts
  induction ts with
  | nil => intro total h; exact absurd rfl h
  | cons t tl ih =>
    intro total _
    cases tl with
    | nil => simp [dropCount]
    | cons u rest =>
      by_cases h : b < total
      · have := ih (total - t) (by simp)
        simp only [dropCount, if_pos h, List.length_cons]
        simp only [List.length_cons] at this
        omega
      · simp [dropCount, if_neg h]

theorem dropCount_stop (b : Int) :
    ∀ (ts : List Int) (total : Int),
      total - (ts.take (dropCount b ts total)).sum ≤ b
        ∨ ts.length ≤ dropCount b ts total + 1 := by
  intro ts
  induction ts with
  | nil => intro total; right; simp [dropCount]
  | cons t tl ih =>
    intro total
    cases tl with
    | nil => right; simp [dropCount]
    | cons u rest =>
      by_cases h : b < total
      · rcases ih (total - t) with h' | h'
        · left
          simp only [dropCount, if_pos h, List.take_succ_cons, List.sum_cons]
          omega
        · right
          simp only [dropCount, if_pos h, List.length_cons] at *
          omega
      · left
        simp only [dropCount, if_neg h, List.take_zero, List.sum_nil]
        omega

theorem dropCount_of_short (b : Int) (ts : List Int) (total : Int) (h : ts.length ≤ 1) :
    dropCount b ts total = 0 := by
  match ts with
  | [] => rfl
  | [t] => rfl
  | t :: u :: rest => simp at h

/-- Master bridge: in the over-budget case, `trim_context` removes the first
`dropCount` non-pinned entries. -/
theorem trim_context_over (context : List ChatMsg) (token_budget : Int)
    (prompt_text system_prompt : String)
    (h0 : ¬ token_budget ≤ 0)
    (h1 : ¬ pretrimTotal context prompt_text system_prompt ≤ token_budget) :
    trim_context context token_budget prompt_text system_prompt
      = removeNonSys
          (dropCount token_budget (nsTokens context)
            (pretrimTotal context prompt_text system_prompt)) context := by
  have hidx :
      ((context.enum.filter (fun q => !(isSys q.2))).map Prod.fst) = nsIdxsFrom 0 context := rfl
  have hmap := nsIdxs_map_getD context []
  simp only [List.length_nil, List.nil_append] at hmap
  unfold trim_context
  rw [if_neg h0, if_neg h1]
  simp only [hidx, trimLoop_eq_drop, hmap]
  rw [show context.enum = List.enumFrom 0 context from rfl]
  rw [filter_pred_eq]
  exact keepFilter_eq_removeNonSys context 0 _

theorem nsTokens_removeNonSys (context : List ChatMsg) (d : Nat) :
    nsTokens (removeNonSys d context) = (nsTokens context).drop d := by
  unfold nsTokens
  rw [removeNonSys_filter_nonsys, List.map_drop]

theorem pretrimTotal_removeNonSys (context : List ChatMsg) (pt st : String) (d : Nat) :
    pretrimTotal (removeNonSys d context) pt st + ((nsTokens context).take d).sum
      = pretrimTotal context pt st := by
  have h1 := sum_map_partition (fun m => (estimate_message_tokens m : Int)) (removeNonSys d context)
  have h2 := sum_map_partition (fun m => (estimate_message_tokens m : Int)) context
  rw [removeNonSys_filter_sys, removeNonSys_filter_nonsys, List.map_drop] at h1
  have h3 := List.sum_take_add_sum_drop
    ((context.filter (fun m => !(isSys m))).map (fun m => (estimate_message_tokens m : Int))) d
  unfold pretrimTotal messageTokens at *
  unfold nsTokens
  omega

/-! ### Claims C5 and C8 -/

/-- Claim C5, counterexample.  The claim quantifies over *every* budget, but
`trim_context` returns `[]` outright for `token_budget <= 0`
(`src/ai/token_counter.py`, lines 57–58): at budget `0` the single non-pinned
entry `{"role": "user", "content": "abcd"}` is dropped, contradicting the
claimed "keeps at least one non-pinned entry whenever the input contains
one". -/
theorem trim_context_nonpositive_budget_counterexample :
    trim_context [⟨"user", "abcd"⟩] 0 "" "" = []
      ∧ isSys ⟨"user", "abcd"⟩ = false := by
  constructor
  · rfl
  · rfl

/-- Claim C5 as amended: for every *positive* budget, `trim_context` returns
an order-preserving subsequence of its input, keeps every pinned
(`role = "system"`) entry, keeps at least one non-pinned entry whenever the
input contains one (even while over budget), and returns the history
unchanged when the pre-trim total is within budget. -/
theorem trim_context_trim_shape (context : List ChatMsg) (token_budget : Int)
    (pt st : String) (hb : 1 ≤ token_budget) :
    (trim_context context token_budget pt st).Sublist context
    ∧ (trim_context context token_budget pt st).filter isSys = context.filter isSys
    ∧ ((∃ m ∈ context, isSys m = false)
        → ∃ m ∈ trim_context context token_budget pt st, isSys m = false)
    ∧ (pretrimTotal context pt st ≤ token_budget
        → trim_context context token_budget pt st = context) := by
  have h0 : ¬ token_budget ≤ 0 := by omega
  by_cases h1 : pretrimTotal context pt st ≤ token_budget
  · have heq : trim_context context token_budget pt st = context := by
      unfold trim_context; rw [if_neg h0, if_pos h1]
    refine ⟨by rw [heq], by rw [heq], ?_, fun _ => heq⟩
    intro h
    rw [heq]
    exact h
  · have heq := trim_context_over context token_budget pt st h0 h1
    refine ⟨by rw [heq]; exact removeNonSys_sublist _ _,
      by rw [heq, removeNonSys_filter_sys], ?_, fun h => absurd h h1⟩
    rintro ⟨m, hm, hns⟩
    have hmem : m ∈ context.filter (fun x => !(isSys x)) :=
      List.mem_filter.mpr ⟨hm, by simp [hns]⟩
    have hne : context.filter (fun x => !(isSys x)) ≠ [] := by
      intro hnil; rw [hnil] at hmem; exact absurd hmem (List.not_mem_nil m)
    have hts : nsTokens context ≠ [] := by
      unfold nsTokens
      simpa using hne
    have hd := dropCount_lt_length token_budget (nsTokens context)
      (pretrimTotal context pt st) hts
    have hlen : (nsTokens context).length = (context.filter (fun x => !(isSys x))).length := by
      unfold nsTokens; simp
    have hfil : (trim_context context token_budget pt st).filter (fun x => !(isSys x))
        = (context.filter (fun x => !(isSys x))).drop
            (dropCount token_budget (nsTokens context) (pretrimTotal context pt st)) := by
      rw [heq, removeNonSys_filter_nonsys]
    have hdropne : (context.filter (fun x => !(isSys x))).drop
        (dropCount token_budget (nsTokens context) (pretrimTotal context pt st)) ≠ [] := by
      rw [Ne, List.drop_eq_nil_iff]
      omega
    rw [← hfil] at hdropne
    rcases List.exists_mem_of_ne_nil _ hdropne with ⟨x, hx⟩
    rcases List.mem_filter.mp hx with ⟨hx1, hx2⟩
    exact ⟨x, hx1, by simpa using hx2⟩

/-- Claim C5, amended theorem at a concrete input: budget `1`, one pinned and
two non-pinned entries. -/
theorem trim_context_trim_shape_witness :
    (1 : Int) ≤ 1
    ∧ ((trim_context [⟨"system", "s"⟩, ⟨"user", "abcdabcd"⟩, ⟨"user", "x"⟩] 1 "" "").Sublist
          [⟨"system", "s"⟩, ⟨"user", "abcdabcd"⟩, ⟨"user", "x"⟩]
        ∧ (trim_context [⟨"system", "s"⟩, ⟨"user", "abcdabcd"⟩, ⟨"user", "x"⟩] 1 "" "").filter isSys
            = [⟨"system", "s"⟩, ⟨"user", "abcdabcd"⟩, ⟨"user", "x"⟩].filter isSys
        ∧ ((∃ m ∈ ([⟨"system", "s"⟩, ⟨"user", "abcdabcd"⟩, ⟨"user", "x"⟩] : List ChatMsg),
              isSys m = false)
            → ∃ m ∈ trim_context [⟨"system", "s"⟩, ⟨"user", "abcdabcd"⟩, ⟨"user", "x"⟩] 1 "" "",
                isSys m = false)
        ∧ (pretrimTotal [⟨"system", "s"⟩, ⟨"user", "abcdabcd"⟩, ⟨"user", "x"⟩] "" "" ≤ 1
            → trim_context [⟨"system", "s"⟩, ⟨"user", "abcdabcd"⟩, ⟨"user", "x"⟩] 1 "" ""
                = [⟨"system", "s"⟩, ⟨"user", "abcdabcd"⟩, ⟨"user", "x"⟩])) :=
  ⟨le_refl 1,
    trim_context_trim_shape [⟨"system", "s"⟩, ⟨"user", "abcdabcd"⟩, ⟨"user", "x"⟩] 1 "" ""
      (le_refl 1)⟩

/-- Claim C8: `trim_context` is idempotent — re-trimming the trimmed history
with the same budget (and the same prompt/system texts) is a no-op, for every
history and every budget. -/
theorem trim_context_idempotent (context : List ChatMsg) (token_budget : Int)
    (pt st : String) :
    trim_context (trim_context context token_budget pt st) token_budget pt st
      = trim_context context token_budget pt st := by
  by_cases h0 : token_budget ≤ 0
  · have hnil : ∀ l : List ChatMsg, trim_context l token_budget pt st = [] := by
      intro l; unfold trim_context; rw [if_pos h0]
    rw [hnil, hnil]
  · by_cases h1 : pretrimTotal context pt st ≤ token_budget
    · have heq : trim_context context token_budget pt st = context := by
        unfold trim_context; rw [if_neg h0, if_pos h1]
      rw [heq]
      exact heq
    · have heq := trim_context_over context token_budget pt st h0 h1
      have hpre := pretrimTotal_removeNonSys context pt st
        (dropCount token_budget (nsTokens context) (pretrimTotal context pt st))
      rcases dropCount_stop token_budget (nsTokens context) (pretrimTotal context pt st)
        with hstop | hlen
      · have h2 : pretrimTotal
            (removeNonSys (dropCount token_budget (nsTokens context)
              (pretrimTotal context pt st)) context) pt st ≤ token_budget := by
          omega
        rw [heq]
        unfold trim_context
        rw [if_neg h0, if_pos h2]
      · by_cases h2 : pretrimTotal
            (removeNonSys (dropCount token_budget (nsTokens context)
              (pretrimTotal context pt st)) context) pt st ≤ token_budget
        · rw [heq]
          unfold trim_context
          rw [if_neg h0, if_pos h2]
        · have heq2 := trim_context_over _ token_budget pt st h0 h2
          have hnsR := nsTokens_removeNonSys context
            (dropCount token_budget (nsTokens context) (pretrimTotal context pt st))
          have hshort : (nsTokens (removeNonSys (dropCount token_budget (nsTokens context)
              (pretrimTotal context pt st)) context)).length ≤ 1 := by
            rw [hnsR, List.length_drop]
            omega
          have hzero := dropCount_of_short token_budget _
            (pretrimTotal (removeNonSys (dropCount token_budget (nsTokens context)
              (pretrimTotal context pt st)) context) pt st) hshort
          rw [heq, heq2, hzero]
          exact removeNonSys_zero _

end TokenCounter

namespace AIRouter

/-- A raw routing entry, i.e. the `dict` value `{"provider": ..., "model": ...}`
whose fields `_validate_and_return` reads with `.get` (`src/ai/router.py`,
lines 144–145); either key may be absent. -/
structure RawProviderInfo where
  provider : Option String
  model : Option String
deriving DecidableEq

/-- The validated `{"provider": str, "model": str}` result of
`get_provider_info`. -/
structure ProviderInfo where
  provider : String
  model : String
deriving DecidableEq

/-- A provider-configuration entry of the `ai_providers` table; the only
field the modelled code reads is `api_key` (`src/ai/summarizer.py`, line 212),
accessed with `[...]`, hence `Option` to model a possible `KeyError`. -/
structure ProviderCfg where
  api_key : Option String
deriving DecidableEq

/-- The router configuration dict (`src/ai/router.py`).  `ai_providers` and
`ai_routing` are required by `_validate_config`; the two override tables
default to `{}` via `config.get(..., {})`. -/
structure RouterConfig where
  ai_providers : List (String × ProviderCfg)
  ai_routing : List (String × RawProviderInfo)
  workspace_overrides : List (String × List (String × RawProviderInfo)) := []
  room_overrides : List (String × List (String × RawProviderInfo)) := []

/-- `_validate_and_return` (`src/ai/router.py`, lines 131–155):
`if not provider_name or not model_name` (Python truthiness: absent key or
empty string) raises `AIProviderNotConfiguredError(purpose)`; a provider name
missing from `ai_providers` raises
`AIProviderNotConfiguredError(purpose, provider=provider_name)`. -/
def _validate_and_return (cfg : RouterConfig) (provider_info : RawProviderInfo)
    (purpose : String) : Except PyError ProviderInfo :=
  match provider_info.provider, provider_info.model with
  | some p, some m =>
      if p.isEmpty || m.isEmpty then .error (.providerNotConfigured purpose none)
      else if (cfg.ai_providers.lookup p).isSome then .ok ⟨p, m⟩
      else .error (.providerNotConfigured purpose (some p))
  | _, _ => .error (.providerNotConfigured purpose none)

/-- The room-level lookup of `get_provider_info` (`src/ai/router.py`,
lines 109–113): `if room_id:` (truthiness — `None` and `""` skip the level),
then `room_id in room_overrides and purpose in room_overrides[room_id]`. -/
def roomEntry (cfg : RouterConfig) (purpose : String) (room_id : Option String) :
    Option RawProviderInfo :=
  match room_id with
  | some rid =>
      if rid.isEmpty then none
      else (cfg.room_overrides.lookup rid).bind (fun ov => ov.lookup purpose)
  | none => none

/-- The workspace-level lookup of `get_provider_info` (`src/ai/router.py`,
lines 115–121). -/
def wsEntry (cfg : RouterConfig) (purpose : String) (workspace_id : Option String) :
    Option RawProviderInfo :=
  match workspace_id with
  | some wid =>
      if wid.isEmpty then none
      else (cfg.workspace_overrides.lookup wid).bind (fun ov => ov.lookup purpose)
  | none => none

/-- `get_provider_info` (`src/ai/router.py`, lines 80–129): consult the room
override, then the workspace override, then the global `ai_routing` table;
raise `AIProviderNotConfiguredError(purpose)` when none matches. -/
def get_provider_info (cfg : RouterConfig) (purpose : String)
    (workspace_id : Option String := none) (room_id : Option String := none) :
    Except PyError ProviderInfo :=
  match roomEntry cfg purpose room_id with
  | some info => _validate_and_return cfg info purpose
  | none =>
    match wsEntry cfg purpose workspace_id with
    | some info => _validate_and_return cfg info purpose
    | none =>
      match cfg.ai_routing.lookup purpose with
      | some info => _validate_and_return cfg info purpose
      | none => .error (.providerNotConfigured purpose none)

/-- `get_provider_config` (`src/ai/router.py`, lines 181–196). -/
def get_provider_config (cfg : RouterConfig) (provider_name : String) :
    Except PyError ProviderCfg :=
  match cfg.ai_providers.lookup provider_name with
  | some c => .ok c
  | none => .error (.providerNotConfigured "provider lookup" (some provider_name))

/-! ### Claim C3 -/

/-- Claim C3: `get_provider_info` resolves with strict priority — a
(validly configured) room-level override wins; with no room-level entry a
workspace(tenant)-level override wins; with neither, the global routing
table is used; and with no entry at any level the call raises
`AIProviderNotConfiguredError(purpose)`. -/
theorem get_provider_info_hierarchy (cfg : RouterConfig) (purpose : String)
    (workspace_id room_id : Option String) :
    (∀ p m, roomEntry cfg purpose room_id = some ⟨some p, some m⟩ → ¬p.isEmpty → ¬m.isEmpty →
        (cfg.ai_providers.lookup p).isSome →
        get_provider_info cfg purpose workspace_id room_id = .ok ⟨p, m⟩)
    ∧ (roomEntry cfg purpose room_id = none →
        ∀ p m, wsEntry cfg purpose workspace_id = some ⟨some p, some m⟩ →
          ¬p.isEmpty → ¬m.isEmpty → (cfg.ai_providers.lookup p).isSome →
          get_provider_info cfg purpose workspace_id room_id = .ok ⟨p, m⟩)
    ∧ (roomEntry cfg purpose room_id = none → wsEntry cfg purpose workspace_id = none →
        ∀ p m, cfg.ai_routing.lookup purpose = some ⟨some p, some m⟩ →
          ¬p.isEmpty → ¬m.isEmpty → (cfg.ai_providers.lookup p).isSome →
          get_provider_info cfg purpose workspace_id room_id = .ok ⟨p, m⟩)
    ∧ (roomEntry cfg purpose room_id = none → wsEntry cfg purpose workspace_id = none →
        cfg.ai_routing.lookup purpose = none →
        get_provider_info cfg purpose workspace_id room_id
          = .error (.providerNotConfigured purpose none)) := by
  have hval : ∀ p m, ¬p.isEmpty → ¬m.isEmpty → (cfg.ai_providers.lookup p).isSome →
      _validate_and_return cfg ⟨some p, some m⟩ purpose = .ok ⟨p, m⟩ := by
    intro p m hp hm hcfg
    unfold _validate_and_return
    simp only
    rw [if_neg (by simp [hp, hm]), if_pos hcfg]
  refine ⟨?_, ?_, ?_, ?_⟩
  · intro p m hroom hp hm hcfg
    unfold get_provider_info
    rw [hroom]
    exact hval p m hp hm hcfg
  · intro hroom p m hws hp hm hcfg
    unfold get_provider_info
    rw [hroom, hws]
    exact hval p m hp hm hcfg
  · intro hroom hws p m hglob hp hm hcfg
    unfold get_provider_info
    rw [hroom, hws, hglob]
    exact hval p m hp hm hcfg
  · intro hroom hws hglob
    unfold get_provider_info
    rw [hroom, hws, hglob]

/-- The spec's example configuration: global routing sends `summary` to
`openai/gpt-4o-mini`; tenant `tenantA` overrides it to
`google/gemini-1.5-flash`. -/
def exampleConfig : RouterConfig :=
  { ai_providers := [("openai", ⟨some "sk-openai"⟩), ("google", ⟨some "sk-google"⟩)]
    ai_routing := [("summary", ⟨some "openai", some "gpt-4o-mini"⟩)]
    workspace_overrides := [("tenantA", [("summary", ⟨some "google", some "gemini-1.5-flash"⟩)])]
    room_overrides := [] }

/-- Claim C3 instantiated on the spec's example scenario: `tenantA` resolves
to the tenant override, `tenantB` falls through to the global table, and an
unknown purpose raises `AIProviderNotConfiguredError`. -/
theorem get_provider_info_hierarchy_witness :
    get_provider_info exampleConfig "summary" (some "tenantA") none
        = .ok ⟨"google", "gemini-1.5-flash"⟩
    ∧ get_provider_info exampleConfig "summary" (some "tenantB") none
        = .ok ⟨"openai", "gpt-4o-mini"⟩
    ∧ get_provider_info exampleConfig "rag_answer" (some "tenantA") none
        = .error (.providerNotConfigured "rag_answer" none) :=
  ⟨(get_provider_info_hierarchy exampleConfig "summary" (some "tenantA") none).2.1
      (by decide) "google" "gemini-1.5-flash" (by decide) (by decide) (by decide) (by decide),
    (get_provider_info_hierarchy exampleConfig "summary" (some "tenantB") none).2.2.1
      (by decide) (by decide) "openai" "gpt-4o-mini" (by decide) (by decide) (by decide)
      (by decide),
    (get_provider_info_hierarchy exampleConfig "rag_answer" (some "tenantA") none).2.2.2
      (by decide) (by decide) (by decide)⟩

end AIRouter

namespace Summarizer

/-- A message dict passed to `Summarizer.summarize`
(`src/ai/summarizer.py`): `sender_name`, `content`, and an optional
`timestamp`.  Timestamps are modelled as `Nat` time points (`datetime.min`
maps to `0`, the smallest value, and `datetime` comparison maps to `≤` on
`Nat`). -/
structure SMsg where
  sender_name : String
  content : String
  timestamp : Option Nat
deriving DecidableEq

/-- `MAX_MESSAGES` (`src/ai/summarizer.py`, line 47). -/
def MAX_MESSAGES : Nat := 100

/-- The sort key of `_build_prompt`:
`msg.get("timestamp", datetime.min)` (`src/ai/summarizer.py`, line 136). -/
def sKey (m : SMsg) : Nat := m.timestamp.getD 0

/-- The order underlying Python's `sorted(messages, key=timestamp)`. -/
def sLE (a b : SMsg) : Prop := sKey a ≤ sKey b

instance : DecidableRel sLE := fun a b => Nat.decLe (sKey a) (sKey b)

instance : IsTotal SMsg sLE := ⟨fun a b => Nat.le_total (sKey a) (sKey b)⟩

instance : IsTrans SMsg sLE := ⟨fun _ _ _ => Nat.le_trans⟩

/-- `sorted(messages, key=lambda m: m.get("timestamp", datetime.min))`
(`src/ai/summarizer.py`, line 136).  Python's `sorted` is a stable ascending
sort, which is modelled by insertion sort: both are uniquely determined by
being a sorted, key-stable permutation of the input. -/
def sortByTimestamp (messages : List SMsg) : List SMsg :=
  List.insertionSort sLE messages

/-- `_filter_by_days` (`src/ai/summarizer.py`, lines 112–124):
keep messages with `msg.get("timestamp", datetime.min) >= now - days`. -/
def _filter_by_days (messages : List SMsg) (days : Nat) (now : Int) : List SMsg :=
  messages.filter (fun m => decide ((now - (days : Int)) ≤ (sKey m : Int)))

/-- The rendering half of `_build_prompt` (`src/ai/summarizer.py`,
lines 138–164), applied to the already-sorted list. -/
def renderPrompt (sorted_messages : List SMsg) : String :=
  let message_texts := sorted_messages.map (fun m =>
    match m.timestamp with
    | some t => "[" ++ toString t ++ "] " ++ m.sender_name ++ ": " ++ m.content
    | none => m.sender_name ++ ": " ++ m.content)
  let conversation := String.intercalate "\n" message_texts
  "以下の会話を要約してください。\n\n## 要約の形式\n- 【決定事項】\n- 【未決事項】\n- 【アクションアイテム】\n\n## 会話内容\n"
    ++ conversation ++ "\n\n## 要約"

/-- `_build_prompt` (`src/ai/summarizer.py`, lines 126–164): sort by
timestamp, then render. -/
def _build_prompt (messages : List SMsg) : String :=
  renderPrompt (sortByTimestamp messages)

/-- The message-count cap of `summarize` (`src/ai/summarizer.py`,
lines 93–95): `if len(messages) > MAX_MESSAGES: messages = messages[:MAX_MESSAGES]`. -/
def capMessages (messages : List SMsg) : List SMsg :=
  if messages.length > MAX_MESSAGES then messages.take MAX_MESSAGES else messages

/-- The provider object built by `Summarizer._get_provider`
(`src/ai/summarizer.py`, lines 209–214): a vendor class instantiated with
`api_key` and `model`. -/
structure BuiltProvider where
  name : String
  api_key : String
  model : String
deriving DecidableEq

/-- `_PROVIDER_CLASSES` (`src/ai/summarizer.py`, lines 166–172). -/
def _PROVIDER_CLASSES : List String := ["openai", "anthropic", "google", "groq"]

/-- `Summarizer._get_provider` (`src/ai/summarizer.py`, lines 174–218):
resolve via the router, fetch the provider config, instantiate the vendor
class; the whole body sits in `try/except Exception`, which re-raises
`SummaryError` unchanged and wraps every other exception (including
`AIProviderNotConfiguredError` from resolution) into
`SummaryError("プロバイダーの取得に失敗しました: ...")`. -/
def _get_provider (cfg : AIRouter.RouterConfig)
    (workspace_id room_id : Option String) : Except PyError BuiltProvider :=
  match (do
      let provider_info ← AIRouter.get_provider_info cfg "summary" workspace_id room_id
      let provider_config ← AIRouter.get_provider_config cfg provider_info.provider
      if _PROVIDER_CLASSES.contains provider_info.provider then
        match provider_config.api_key with
        | some key => .ok ⟨provider_info.provider, key, provider_info.model⟩
        | none => .error (.keyError "api_key")
      else
        .error (.summaryError ("未対応のプロバイダー: " ++ provider_info.provider))
      : Except PyError BuiltProvider) with
  | .error (.summaryError m) => .error (.summaryError m)
  | .error e => .error (.summaryError ("プロバイダーの取得に失敗しました: " ++ e.message))
  | .ok v => .ok v

/-- The tail of `summarize` after filtering (`src/ai/summarizer.py`,
lines 93–110): cap, build the prompt, then run
`try: provider = _get_provider(...); provider.generate(...)`
`except AIProviderError as e: raise SummaryError(...)`.
The vendor call is the external oracle `gen`. -/
def summarizeCore (cfg : AIRouter.RouterConfig) (messages : List SMsg)
    (workspace_id room_id : Option String)
    (gen : BuiltProvider → String → Except PyError String) : Except PyError String :=
  match (do
      let provider ← _get_provider cfg workspace_id room_id
      gen provider (_build_prompt (capMessages messages))
      : Except PyError String) with
  | .ok r => .ok r
  | .error e =>
      if e.isAIProviderError then
        .error (.summaryError ("要約の生成に失敗しました: " ++ e.message))
      else .error e

/-- `Summarizer.summarize` (`src/ai/summarizer.py`, lines 60–110): empty-input
sentinel, optional day-window filter with its own sentinel, then
`summarizeCore`. -/
def summarize (cfg : AIRouter.RouterConfig) (messages : List SMsg)
    (days : Option Nat) (workspace_id room_id : Option String)
    (gen : BuiltProvider → String → Except PyError String) (now : Int) :
    Except PyError String :=
  if messages.isEmpty then .ok "要約するメッセージがありません。"
  else
    match days with
    | some d =>
        let filtered := _filter_by_days messages d now
        if filtered.isEmpty then
          .ok ("直近" ++ toString d ++ "日間にメッセージがありません。")
        else summarizeCore cfg filtered workspace_id room_id gen
    | none => summarizeCore cfg messages workspace_id room_id gen

/-! ### Claim C6 -/

theorem filter_orderedInsert (t : Nat) (a : SMsg) (l : List SMsg) :
    (List.orderedInsert sLE a l).filter (fun b => sKey b == t)
      = if sKey a == t then a :: l.filter (fun b => sKey b == t)
        else l.filter (fun b => sKey b == t) := by
  induction l with
  | nil =>
    by_cases hat : sKey a == t <;> simp [List.orderedInsert, List.filter, hat]
  | cons b l ih =>
    by_cases hab : sLE a b
    · rw [List.orderedInsert, if_pos hab]
      exact List.filter_cons
    · have hba : sKey b < sKey a := by
        unfold sLE at hab; omega
      rw [List.orderedInsert, if_neg hab]
      rw [List.filter_cons, ih]
      by_cases hat : (sKey a == t) = true
      · have hkey : sKey a = t := by simpa using hat
        have hbt : (sKey b == t) = false := by
          apply beq_eq_false_iff_ne.mpr
          omega
        simp [hat, hbt, List.filter_cons]
      · have hat' : (sKey a == t) = false := by simpa using hat
        by_cases hbt : (sKey b == t) = true
        · simp [hat', hbt, List.filter_cons]
        · have hbt' : (sKey b == t) = false := by simpa using hbt
          simp [hat', hbt', List.filter_cons]

theorem filter_sortByTimestamp (t : Nat) (l : List SMsg) :
    (sortByTimestamp l).filter (fun b => sKey b == t) = l.filter (fun b => sKey b == t) := by
  unfold sortByTimestamp
  induction l with
  | nil => rfl
  | cons a l ih =>
    rw [show List.insertionSort sLE (a :: l)
        = List.orderedInsert sLE a (List.insertionSort sLE l) from rfl]
    rw [filter_orderedInsert, List.filter_cons]
    by_cases hat : (sKey a == t) = true
    · simp only [hat, if_true, ih]
    · have hat' : (sKey a == t) = false := by simpa using hat
      simp only [hat', if_false, ih]

/-- Claim C6, counterexample.  `summarize` caps with `messages[:MAX_MESSAGES]`
(`src/ai/summarizer.py`, lines 94–95), i.e. the *first* 100 messages in input
order, not "the most recent 100 (the 100 with the latest timestamps)": on 101
messages with strictly increasing timestamps `0..100`, the message with the
latest timestamp `100` is dropped while the oldest (timestamp `0`) is kept. -/
theorem capMessages_not_most_recent_counterexample :
    ((capMessages ((List.range 101).map
          (fun i => (⟨"s", "c", some i⟩ : SMsg)))).map sKey).contains 100 = false
    ∧ (((List.range 101).map
          (fun i => (⟨"s", "c", some i⟩ : SMsg))).map sKey).contains 100 = true
    ∧ ((capMessages ((List.range 101).map
          (fun i => (⟨"s", "c", some i⟩ : SMsg)))).map sKey).contains 0 = true := by
  refine ⟨by decide, by decide, by decide⟩

/-- Claim C6 as amended: after optional window filtering, the input is capped
to the *first* `MAX_MESSAGES = 100` messages in input order
(`messages[:MAX_MESSAGES]`); the prompt is then built from the kept messages
sorted ascending by timestamp with a stable sort — a permutation of the kept
messages, sorted under `sLE`, in which messages with equal timestamps keep
their original relative order. -/
theorem summarize_cap_and_stable_sort (messages : List SMsg) :
    capMessages messages = messages.take MAX_MESSAGES
    ∧ (sortByTimestamp (capMessages messages)).Perm (capMessages messages)
    ∧ List.Sorted sLE (sortByTimestamp (capMessages messages))
    ∧ (∀ t : Nat, (sortByTimestamp (capMessages messages)).filter (fun b => sKey b == t)
        = (capMessages messages).filter (fun b => sKey b == t))
    ∧ _build_prompt (capMessages messages)
        = renderPrompt (sortByTimestamp (capMessages messages)) := by
  refine ⟨?_, List.perm_insertionSort sLE _, List.sorted_insertionSort sLE _,
    fun t => filter_sortByTimestamp t _, rfl⟩
  unfold capMessages
  by_cases h : messages.length > MAX_MESSAGES
  · rw [if_pos h]
  · rw [if_neg h]
    exact (List.take_of_length_le (by omega)).symm

/-! ### Claim C7 -/

/-- An `AIProviderError` (in particular `AIProviderNotConfiguredError`)
escaping the `try` block of `_get_provider` is wrapped into `SummaryError`
by its `except Exception` clause (`src/ai/summarizer.py`, lines 215–218). -/
theorem _get_provider_wraps_resolution_error (cfg : AIRouter.RouterConfig)
    (workspace_id room_id : Option String) (e : PyError)
    (hres : AIRouter.get_provider_info cfg "summary" workspace_id room_id = .error e)
    (hai : e.isAIProviderError = true) :
    _get_provider cfg workspace_id room_id
      = .error (.summaryError ("プロバイダーの取得に失敗しました: " ++ e.message)) := by
  unfold _get_provider
  rw [show (do
      let provider_info ← AIRouter.get_provider_info cfg "summary" workspace_id room_id
      let provider_config ← AIRouter.get_provider_config cfg provider_info.provider
      if _PROVIDER_CLASSES.contains provider_info.provider then
        match provider_config.api_key with
        | some key => .ok ⟨provider_info.provider, key, provider_info.model⟩
        | none => .error (.keyError "api_key")
      else
        .error (.summaryError ("未対応のプロバイダー: " ++ provider_info.provider))
      : Except PyError BuiltProvider) = .error e by rw [hres]; rfl]
  cases e <;> first
    | rfl
    | simp [PyError.isAIProviderError] at hai

/-- Claim C7 as amended: when provider resolution fails with an
`AIProviderNotConfiguredError` (or any other `AIProviderError`),
`summarize` on a non-empty message list with no day window surfaces a
`SummaryError` wrapping it — the resolution error is *not* surfaced
untouched. -/
theorem summarize_resolution_error_wrapped (cfg : AIRouter.RouterConfig)
    (messages : List SMsg) (workspace_id room_id : Option String)
    (gen : BuiltProvider → String → Except PyError String) (now : Int) (e : PyError)
    (hne : messages.isEmpty = false)
    (hres : AIRouter.get_provider_info cfg "summary" workspace_id room_id = .error e)
    (hai : e.isAIProviderError = true) :
    summarize cfg messages none workspace_id room_id gen now
      = .error (.summaryError ("プロバイダーの取得に失敗しました: " ++ e.message)) := by
  unfold summarize
  rw [if_neg (by simp [hne])]
  unfold summarizeCore
  rw [show (do
      let provider ← _get_provider cfg workspace_id room_id
      gen provider (_build_prompt (capMessages messages))
      : Except PyError String)
    = .error (.summaryError ("プロバイダーの取得に失敗しました: " ++ e.message)) by
      rw [_get_provider_wraps_resolution_error cfg workspace_id room_id e hres hai]; rfl]
  rfl

/-- A configuration with a provider table but no `summary` routing entry. -/
def cfgNoSummary : AIRouter.RouterConfig :=
  { ai_providers := [("openai", ⟨some "sk"⟩)]
    ai_routing := [] }

/-- Claim C7, counterexample.  With no `summary` routing entry at any level,
`summarize` on a non-empty message list returns a `SummaryError` (produced by
`_get_provider`'s `except Exception` wrapper), not the untouched
`AIProviderNotConfiguredError` the claim promises: the surfaced error fails
`isinstance(e, AIProviderError)`. -/
theorem summarize_resolution_error_counterexample :
    summarize cfgNoSummary [⟨"alice", "hello", some 1⟩] none none none
        (fun _ _ => .ok "generated") 0
      = .error (.summaryError
          "プロバイダーの取得に失敗しました: Provider not configured for purpose: summary")
    ∧ PyError.isAIProviderError (.summaryError
          "プロバイダーの取得に失敗しました: Provider not configured for purpose: summary")
        = false := by
  exact ⟨rfl, rfl⟩

/-- Claim C7, amended theorem at a concrete input: an explicit application of
`summarize_resolution_error_wrapped` to `cfgNoSummary`. -/
theorem summarize_resolution_error_wrapped_witness :
    summarize cfgNoSummary [⟨"bob", "hi there", some 2⟩] none (some "ws1") none
        (fun _ _ => .ok "generated") 5
      = .error (.summaryError ("プロバイダーの取得に失敗しました: "
          ++ (PyError.providerNotConfigured "summary" none).message)) :=
  summarize_resolution_error_wrapped cfgNoSummary [⟨"bob", "hi there", some 2⟩]
    (some "ws1") none (fun _ _ => .ok "generated") 5
    (.providerNotConfigured "summary" none) (by decide) (by rfl) (by decide)

end Summarizer

namespace Notifier

/-- A `Room` row (`src/db/models.py`) as read by the notifier:
`room_type = "aggregation"` marks notification sinks. -/
structure Room where
  id : Nat
  workspace_id : Nat
  name : String
  room_type : String
  discord_channel_id : String
deriving DecidableEq

/-- A `Message` row as read by `AggregationNotifier`. -/
structure Message where
  id : Nat
  sender_name : String
  content : String
  message_type : String
deriving DecidableEq

/-- `MAX_SIMILAR_MESSAGES` (`src/bot/notifier.py`, line 45). -/
def MAX_SIMILAR_MESSAGES : Nat := 3

/-- `MAX_CONCURRENT_REQUESTS` (`src/bot/notifier.py`, line 48). -/
def MAX_CONCURRENT_REQUESTS : Nat := 5

/-- Python's no-argument `str.split()`: split on runs of whitespace and drop
empty fragments.  Written as structural recursion over the character list so
that it evaluates inside the kernel. -/
def pySplitAux : List Char → List Char → List (List Char)
  | [], [] => []
  | [], cur => [cur.reverse]
  | c :: rest, cur =>
      if c.isWhitespace then
        if cur.isEmpty then pySplitAux rest []
        else cur.reverse :: pySplitAux rest []
      else pySplitAux rest (c :: cur)

/-- `content.split()` of Python. -/
def pySplit (s : String) : List String :=
  (pySplitAux s.toList []).map (fun cs => String.mk cs)

/-- `_extract_keywords` (`src/bot/notifier.py`, lines 303–319):
whitespace-split (`str.split()` drops empty fragments), keep words of length
≥ 3, cap at 5. -/
def _extract_keywords (content : String) : List String :=
  let words := pySplit content
  let keywords := words.filter (fun w => w.length ≥ 3)
  keywords.take 5

/-- The inner accumulation of `_find_similar_messages`
(`src/bot/notifier.py`, lines 297–299): append each hit that is not the
triggering message and not already collected. -/
def addNew (exclude_message_id : Nat) (results : List Message) (msgs : List Message) :
    List Message :=
  msgs.foldl
    (fun acc m => if m.id ≠ exclude_message_id ∧ ¬ acc.contains m then acc ++ [m] else acc)
    results

/-- The `for keyword in keywords[:3]` loop of `_find_similar_messages`
(`src/bot/notifier.py`, lines 290–299).  `search` is the
`db.search_messages(workspace_id=..., keyword=..., limit=...)` collaborator;
it may raise, and nothing in this loop catches. -/
def fsLoop (search : String → Nat → Except PyError (List Message))
    (exclude_message_id : Nat) :
    List String → List Message → Except PyError (List Message)
  | [], acc => .ok acc
  | k :: ks, acc => do
      let msgs ← search k (MAX_SIMILAR_MESSAGES * 2)
      fsLoop search exclude_message_id ks (addNew exclude_message_id acc msgs)

/-- `_find_similar_messages` (`src/bot/notifier.py`, lines 265–301). -/
def _find_similar_messages (search : String → Nat → Except PyError (List Message))
    (content : String) (exclude_message_id : Nat) : Except PyError (List Message) :=
  let keywords := _extract_keywords content
  if keywords.isEmpty then .ok []
  else do
    let results ← fsLoop search exclude_message_id (keywords.take 3) []
    .ok (results.take MAX_SIMILAR_MESSAGES)

/-- `notify_new_message` (`src/bot/notifier.py`, lines 73–122), with its two
observable effects made explicit: the first component is the Python return
value (or the exception escaping the call), the second the list of
destination room ids for which `_send_notification` was *attempted*.
`getTargets` models `db.get_target_rooms`, `search` models
`db.search_messages`, and `deliverOk r = false` models `_send_notification`
raising for destination `r` (caught by the per-destination
`try/except Exception`, lines 110–121).  The similarity phase
(lines 100–106) has no `try/except`. -/
def notify_core (getTargets : Nat → List Room)
    (search : String → Nat → Except PyError (List Message))
    (deliverOk : Room → Bool) (room : Room) (message : Message)
    (find_similar : Bool) (hasRouter : Bool) :
    Except PyError (List Nat) × List Nat :=
  let target_rooms := getTargets room.id
  let aggregation_rooms := target_rooms.filter (fun r => r.room_type == "aggregation")
  if aggregation_rooms.isEmpty then (.ok [], [])
  else
    match (if find_similar && hasRouter then
        _find_similar_messages search message.content message.id
      else .ok []) with
    | .error e => (.error e, [])
    | .ok _similar =>
        let result := aggregation_rooms.foldl
          (fun (acc : List Nat × List Nat) r =>
            (if deliverOk r then acc.1 ++ [r.id] else acc.1, acc.2 ++ [r.id]))
          ([], [])
        (.ok result.1, result.2)

/-- The Python return value of `notify_new_message`. -/
def notify_new_message (getTargets : Nat → List Room)
    (search : String → Nat → Except PyError (List Message))
    (deliverOk : Room → Bool) (room : Room) (message : Message)
    (find_similar : Bool) (hasRouter : Bool) : Except PyError (List Nat) :=
  (notify_core getTargets search deliverOk room message find_similar hasRouter).1

/-! ### Claim C2 -/

/-- Claim C2, counterexample.  A persistence-search failure during the
similarity-enrichment phase is *not* caught: with one linked aggregation
room, `find_similar=True`, a router present and `db.search_messages` raising
a connection error, `notify_new_message` raises that error and no delivery
is attempted. -/
theorem notify_similar_failure_counterexample :
    notify_core
        (fun _ => [⟨6, 1, "agg", "aggregation", "600"⟩])
        (fun _ _ => .error (.connectionError "db down"))
        (fun _ => true)
        ⟨5, 1, "src", "topic", "500"⟩
        ⟨42, "alice", "hello world", "text"⟩
        true true
      = (.error (.connectionError "db down"), []) := by
  rfl

/-- Claim C2 as amended: when the similarity-enrichment phase raises, the
error propagates out of `notify_new_message` unhandled, and no delivery to
any linked aggregation destination is attempted. -/
theorem notify_similar_failure_aborts (getTargets : Nat → List Room)
    (search : String → Nat → Except PyError (List Message))
    (deliverOk : Room → Bool) (room : Room) (message : Message) (e : PyError)
    (hagg : ((getTargets room.id).filter (fun r => r.room_type == "aggregation")).isEmpty
        = false)
    (hsim : _find_similar_messages search message.content message.id = .error e) :
    notify_core getTargets search deliverOk room message true true = (.error e, []) := by
  unfold notify_core
  rw [if_neg (by simp [hagg])]
  simp only [Bool.and_self, if_true]
  rw [hsim]

/-- Claim C2, amended theorem at a concrete input. -/
theorem notify_similar_failure_aborts_witness :
    notify_core
        (fun _ => [⟨7, 2, "agg2", "aggregation", "700"⟩, ⟨8, 2, "agg3", "aggregation", "800"⟩])
        (fun _ _ => .error (.responseError "bad payload"))
        (fun _ => true)
        ⟨9, 2, "src2", "member", "900"⟩
        ⟨43, "carol", "please review ticket", "text"⟩
        true true
      = (.error (.responseError "bad payload"), []) :=
  notify_similar_failure_aborts
    (fun _ => [⟨7, 2, "agg2", "aggregation", "700"⟩, ⟨8, 2, "agg3", "aggregation", "800"⟩])
    (fun _ _ => .error (.responseError "bad payload"))
    (fun _ => true)
    ⟨9, 2, "src2", "member", "900"⟩
    ⟨43, "carol", "please review ticket", "text"⟩
    (.responseError "bad payload") (by rfl) (by rfl)

/-! ### Claim C4 -/

theorem notify_fold_spec (deliverOk : Room → Bool) :
    ∀ (rooms : List Room) (acc : List Nat × List Nat),
      rooms.foldl
          (fun (acc : List Nat × List Nat) r =>
            (if deliverOk r then acc.1 ++ [r.id] else acc.1, acc.2 ++ [r.id]))
          acc
        = (acc.1 ++ (rooms.filter deliverOk).map Room.id, acc.2 ++ rooms.map Room.id) := by
  intro rooms
  induction rooms with
  | nil => intro acc; simp
  | cons r rest ih =>
    intro acc
    by_cases h : deliverOk r
    · simp only [List.foldl_cons, ih, List.filter_cons, List.map_cons, h]
      simp
    · have h' : deliverOk r = false := by simpa using h
      simp only [List.foldl_cons, ih, List.filter_cons, List.map_cons, h']
      simp

/-- Claim C4: with at least two linked aggregation destinations (and a
similarity phase that does not raise), every destination is attempted in
order, a failing destination is excluded from the returned list, failures do
not prevent the remaining attempts, and the call returns normally (never
raises). -/
theorem notify_partial_failure_isolated (getTargets : Nat → List Room)
    (search : String → Nat → Except PyError (List Message))
    (deliverOk : Room → Bool) (room : Room) (message : Message)
    (find_similar hasRouter : Bool) (sim : List Message)
    (hagg : 2 ≤ ((getTargets room.id).filter (fun r => r.room_type == "aggregation")).length)
    (hsim : (if find_similar && hasRouter then
        _find_similar_messages search message.content message.id
      else .ok []) = .ok sim) :
    notify_core getTargets search deliverOk room message find_similar hasRouter
      = (.ok ((((getTargets room.id).filter
              (fun r => r.room_type == "aggregation")).filter deliverOk).map Room.id),
          ((getTargets room.id).filter (fun r => r.room_type == "aggregation")).map Room.id) := by
  unfold notify_core
  rw [if_neg (by
    intro hempty
    rw [List.isEmpty_iff] at hempty
    rw [hempty] at hagg
    simp at hagg)]
  rw [hsim]
  simp only [notify_fold_spec deliverOk, List.nil_append]

/-- Claim C4, theorem at a concrete input: two destinations, the first send
raising, the second succeeding — both attempted, only the second returned. -/
theorem notify_partial_failure_isolated_witness :
    notify_core
        (fun _ => [⟨11, 3, "aggA", "aggregation", "110"⟩, ⟨12, 3, "aggB", "aggregation", "120"⟩])
        (fun _ _ => .ok [])
        (fun r => r.id == 12)
        ⟨10, 3, "src3", "topic", "100"⟩
        ⟨50, "dave", "fyi", "text"⟩
        false true
      = (.ok [12], [11, 12]) :=
  notify_partial_failure_isolated
    (fun _ => [⟨11, 3, "aggA", "aggregation", "110"⟩, ⟨12, 3, "aggB", "aggregation", "120"⟩])
    (fun _ _ => .ok [])
    (fun r => r.id == 12)
    ⟨10, 3, "src3", "topic", "100"⟩
    ⟨50, "dave", "fyi", "text"⟩
    false true []
    (by decide) (by rfl)

/-! ### Claim C9 -/

/-- The primitive actions `_send_notification` performs, in program order
(`src/bot/notifier.py`, lines 124–168). -/
inductive Act where
  | acquire
  | cooldownCheck (channel_id : String)
  | getChannel (channel_id : String) (found : Bool)
  | fetchChannel (channel_id : String) (ok : Bool)
  | typeCheck (isText : Bool)
  | send (channel_id : String) (ok : Bool)
  | writeLastSent (channel_id : String) (t : Nat)
  | release
deriving DecidableEq

/-- The environment a single `_send_notification` call runs against:
whether `bot.get_channel` finds the channel, whether `bot.fetch_channel`
returns without raising, whether the channel is a `TextChannel`, whether
`channel.send` succeeds, and the monotonic clock value read on success. -/
structure SendEnv where
  getChannelFound : Bool
  fetchOk : Bool
  isText : Bool
  sendOk : Bool
  now : Nat
deriving DecidableEq

/-- `self._channel_last_sent[channel_id] = time.monotonic()`: Python dict
assignment on the cooldown map. -/
def setLast : List (String × Nat) → String → Nat → List (String × Nat)
  | [], k, v => [(k, v)]
  | (k', v') :: rest, k, v =>
      if k' == k then (k, v) :: rest else (k', v') :: setLast rest k v

/-- `_send_notification` (`src/bot/notifier.py`, lines 124–168) as a trace
semantics: returns the list of performed actions, the cooldown map after the
call, and whether the call raised.  The `async with self._semaphore` block
(line 146) opens with an acquire and releases on every exit path; the
cooldown wait (line 148) only reads the map; the map write (line 168) is the
last statement after a successful `channel.send` (line 165). -/
def _send_notification (st : List (String × Nat)) (channel_id : String) (env : SendEnv) :
    List Act × List (String × Nat) × Bool :=
  let pre := [Act.acquire, Act.cooldownCheck channel_id]
  if env.getChannelFound then
    if !env.isText then
      (pre ++ [Act.getChannel channel_id true, Act.typeCheck false, Act.release], st, true)
    else if env.sendOk then
      (pre ++ [Act.getChannel channel_id true, Act.typeCheck true,
          Act.send channel_id true, Act.writeLastSent channel_id env.now, Act.release],
        setLast st channel_id env.now, false)
    else
      (pre ++ [Act.getChannel channel_id true, Act.typeCheck true,
          Act.send channel_id false, Act.release], st, true)
  else if env.fetchOk then
    if !env.isText then
      (pre ++ [Act.getChannel channel_id false, Act.fetchChannel channel_id true,
          Act.typeCheck false, Act.release], st, true)
    else if env.sendOk then
      (pre ++ [Act.getChannel channel_id false, Act.fetchChannel channel_id true,
          Act.typeCheck true, Act.send channel_id true,
          Act.writeLastSent channel_id env.now, Act.release],
        setLast st channel_id env.now, false)
    else
      (pre ++ [Act.getChannel channel_id false, Act.fetchChannel channel_id true,
          Act.typeCheck true, Act.send channel_id false, Act.release], st, true)
  else
    (pre ++ [Act.getChannel channel_id false, Act.fetchChannel channel_id false,
        Act.release], st, true)

/-- Claim C9: the cooldown timestamp for a destination is written exactly on
a successful send, immediately after that send; on any failure path
(channel-lookup failure, non-text channel, send error) the cooldown map is
left unchanged and no write action occurs in the trace. -/
theorem send_cooldown_write_iff_success (st : List (String × Nat))
    (channel_id : String) (env : SendEnv) :
    ((_send_notification st channel_id env).2.2 = false →
        (_send_notification st channel_id env).2.1 = setLast st channel_id env.now
        ∧ ∃ p, (_send_notification st channel_id env).1
            = p ++ [Act.send channel_id true, Act.writeLastSent channel_id env.now, Act.release])
    ∧ ((_send_notification st channel_id env).2.2 = true →
        (_send_notification st channel_id env).2.1 = st
        ∧ ∀ t, Act.writeLastSent channel_id t ∉ (_send_notification st channel_id env).1) := by
  rcases env with ⟨gf, fo, it, so, now⟩
  unfold _send_notification
  rcases gf with _ | _ <;> rcases fo with _ | _ <;> rcases it with _ | _ <;> rcases so with _ | _ <;>
    simp <;>
    first
      | exact ⟨[Act.acquire, Act.cooldownCheck channel_id, Act.getChannel channel_id false,
            Act.fetchChannel channel_id true, Act.typeCheck true], rfl⟩
      | exact ⟨[Act.acquire, Act.cooldownCheck channel_id, Act.getChannel channel_id true,
            Act.typeCheck true], rfl⟩

/-- Claim C9, theorem at a concrete input: a successful send writes the map,
a failed send leaves it unchanged. -/
theorem send_cooldown_write_iff_success_witness :
    ((_send_notification [("222", 7)] "111" ⟨true, true, true, true, 41⟩).2.2 = false →
        (_send_notification [("222", 7)] "111" ⟨true, true, true, true, 41⟩).2.1
            = setLast [("222", 7)] "111" 41
        ∧ ∃ p, (_send_notification [("222", 7)] "111" ⟨true, true, true, true, 41⟩).1
            = p ++ [Act.send "111" true, Act.writeLastSent "111" 41, Act.release])
    ∧ ((_send_notification [("222", 7)] "111" ⟨true, true, true, false, 41⟩).2.2 = true →
        (_send_notification [("222", 7)] "111" ⟨true, true, true, false, 41⟩).2.1 = [("222", 7)]
        ∧ ∀ t, Act.writeLastSent "111" t
            ∉ (_send_notification [("222", 7)] "111" ⟨true, true, true, false, 41⟩).1) :=
  ⟨(send_cooldown_write_iff_success [("222", 7)] "111" ⟨true, true, true, true, 41⟩).1,
    (send_cooldown_write_iff_success [("222", 7)] "111" ⟨true, true, true, false, 41⟩).2⟩

end Notifier

namespace ReminderNotifier

/-- A `Reminder` row (`src/db/models.py`) as read by
`ReminderNotifier.check_and_notify`. -/
structure Reminder where
  id : Nat
  workspace_id : Nat
  title : String
deriving DecidableEq

/-- The inner `for agg_room in aggregation_rooms` loop of `check_and_notify`
(`src/bot/notifier.py`, lines 385–386): attempt each room in order; an
exception from `_send_reminder_notification` (modelled by
`sendOk room rem = false`) escapes the inner loop, so the failing attempt is
the last one.  Returns the attempted room ids and whether all sends
succeeded. -/
def attemptRooms (sendOk : Notifier.Room → Reminder → Bool) (rem : Reminder) :
    List Notifier.Room → List Nat × Bool
  | [] => ([], true)
  | r :: rest =>
      if sendOk r rem then
        ((attemptRooms sendOk rem rest).1.cons r.id, (attemptRooms sendOk rem rest).2)
      else ([r.id], false)

/-- `ReminderNotifier.check_and_notify` (`src/bot/notifier.py`,
lines 360–396).  `pending` models `db.get_pending_reminders(...)`,
`getAggRooms` models `db.get_aggregation_rooms(workspace_id)`, and
`sendOk` models whether `_send_reminder_notification` returns normally.
The per-reminder `try/except Exception` (lines 376–394) wraps the whole
block: room lookup, the delivery loop, and the
`db.update_reminder_notified(reminder.id, notified=True)` write.  The result
is `(notified_count, delivery attempts as (room id, reminder id) pairs,
reminder ids marked notified)`. -/
def check_and_notify (pending : List Reminder)
    (getAggRooms : Nat → List Notifier.Room)
    (sendOk : Notifier.Room → Reminder → Bool) :
    Nat × List (Nat × Nat) × List Nat :=
  pending.foldl
    (fun acc rem =>
      let rooms := getAggRooms rem.workspace_id
      if rooms.isEmpty then acc
      else
        let att := attemptRooms sendOk rem rooms
        if att.2 then
          (acc.1 + 1, acc.2.1 ++ att.1.map (fun rid => (rid, rem.id)), acc.2.2 ++ [rem.id])
        else
          (acc.1, acc.2.1 ++ att.1.map (fun rid => (rid, rem.id)), acc.2.2))
    (0, [], [])

/-! ### Claim C1 -/

/-- Claim C1, counterexample.  One pending reminder in a tenant with two
aggregation rooms, every delivery failing: the exception from the first
delivery escapes the inner `for` loop into the per-reminder `except`, so the
second room is never attempted and `notified` is never set — the claim
instead requires both rooms attempted and the flag set. -/
theorem reminder_notified_counterexample :
    check_and_notify [⟨10, 1, "standup"⟩]
        (fun _ => [⟨1, 1, "aggA", "aggregation", "100"⟩, ⟨2, 1, "aggB", "aggregation", "200"⟩])
        (fun _ _ => false)
      = (0, [(1, 10)], []) := by
  rfl

theorem attemptRooms_ok (sendOk : Notifier.Room → Reminder → Bool) (rem : Reminder) :
    ∀ rooms : List Notifier.Room,
      (attemptRooms sendOk rem rooms).2 = rooms.all (fun r => sendOk r rem) := by
  intro rooms
  induction rooms with
  | nil => rfl
  | cons r rest ih =>
    by_cases h : sendOk r rem
    · simp [attemptRooms, h, ih]
    · have h' : sendOk r rem = false := by simpa using h
      simp [attemptRooms, h']

theorem check_and_notify_foldl_spec (getAggRooms : Nat → List Notifier.Room)
    (sendOk : Notifier.Room → Reminder → Bool) :
    ∀ (pending : List Reminder) (acc : Nat × List (Nat × Nat) × List Nat),
      (pending.foldl
        (fun acc rem =>
          let rooms := getAggRooms rem.workspace_id
          if rooms.isEmpty then acc
          else
            let att := attemptRooms sendOk rem rooms
            if att.2 then
              (acc.1 + 1, acc.2.1 ++ att.1.map (fun rid => (rid, rem.id)), acc.2.2 ++ [rem.id])
            else
              (acc.1, acc.2.1 ++ att.1.map (fun rid => (rid, rem.id)), acc.2.2))
        acc).2.2
      = acc.2.2 ++ (pending.filter (fun rem =>
          !(getAggRooms rem.workspace_id).isEmpty
            && (getAggRooms rem.workspace_id).all (fun r => sendOk r rem))).map Reminder.id := by
  intro pending
  induction pending with
  | nil => intro acc; simp
  | cons rem rest ih =>
    intro acc
    simp only [List.foldl_cons, List.filter_cons]
    by_cases hroom : (getAggRooms rem.workspace_id).isEmpty
    · rw [if_pos hroom, ih, if_neg (by simp [hroom])]
    · have hroom' : (getAggRooms rem.workspace_id).isEmpty = false := by simpa using hroom
      rw [if_neg (by simp [hroom'])]
      by_cases hatt : (attemptRooms sendOk rem (getAggRooms rem.workspace_id)).2
      · have hall : (getAggRooms rem.workspace_id).all (fun r => sendOk r rem) = true := by
          rw [← attemptRooms_ok sendOk rem]; exact hatt
        rw [if_pos hatt, ih, if_pos (by simp [hroom', hall])]
        simp
      · have hatt' : (attemptRooms sendOk rem (getAggRooms rem.workspace_id)).2 = false := by
          simpa using hatt
        have hall : (getAggRooms rem.workspace_id).all (fun r => sendOk r rem) = false := by
          rw [← attemptRooms_ok sendOk rem]; exact hatt'
        rw [if_neg (by simp [hatt']), ih, if_neg (by simp [hall])]

theorem check_and_notify_count_spec (getAggRooms : Nat → List Notifier.Room)
    (sendOk : Notifier.Room → Reminder → Bool) :
    ∀ (pending : List Reminder) (acc : Nat × List (Nat × Nat) × List Nat),
      (pending.foldl
        (fun acc rem =>
          let rooms := getAggRooms rem.workspace_id
          if rooms.isEmpty then acc
          else
            let att := attemptRooms sendOk rem rooms
            if att.2 then
              (acc.1 + 1, acc.2.1 ++ att.1.map (fun rid => (rid, rem.id)), acc.2.2 ++ [rem.id])
            else
              (acc.1, acc.2.1 ++ att.1.map (fun rid => (rid, rem.id)), acc.2.2))
        acc).1
      = acc.1 + (pending.filter (fun rem =>
          !(getAggRooms rem.workspace_id).isEmpty
            && (getAggRooms rem.workspace_id).all (fun r => sendOk r rem))).length := by
  intro pending
  induction pending with
  | nil => intro acc; simp
  | cons rem rest ih =>
    intro acc
    simp only [List.foldl_cons, List.filter_cons]
    by_cases hroom : (getAggRooms rem.workspace_id).isEmpty
    · rw [if_pos hroom, ih, if_neg (by simp [hroom])]
    · have hroom' : (getAggRooms rem.workspace_id).isEmpty = false := by simpa using hroom
      rw [if_neg (by simp [hroom'])]
      by_cases hatt : (attemptRooms sendOk rem (getAggRooms rem.workspace_id)).2
      · have hall : (getAggRooms rem.workspace_id).all (fun r => sendOk r rem) = true := by
          rw [← attemptRooms_ok sendOk rem]; exact hatt
        rw [if_pos hatt, ih, if_pos (by simp [hroom', hall])]
        simp only [List.length_cons]
        omega
      · have hatt' : (attemptRooms sendOk rem (getAggRooms rem.workspace_id)).2 = false := by
          simpa using hatt
        have hall : (getAggRooms rem.workspace_id).all (fun r => sendOk r rem) = false := by
          rw [← attemptRooms_ok sendOk rem]; exact hatt'
        rw [if_neg (by simp [hatt']), ih, if_neg (by simp [hall])]

/-- Claim C1 as amended: a reminder's `notified` flag is written (exactly
once, in processing order) precisely when its tenant has at least one
aggregation room *and every per-destination delivery succeeds*; any
per-destination failure aborts the remaining deliveries of that reminder and
skips the flag write, while processing of the other pending reminders
continues; the returned count equals the number of flagged reminders. -/
theorem reminder_notified_iff_all_sends_succeed (pending : List Reminder)
    (getAggRooms : Nat → List Notifier.Room)
    (sendOk : Notifier.Room → Reminder → Bool) :
    (check_and_notify pending getAggRooms sendOk).2.2
        = (pending.filter (fun rem =>
            !(getAggRooms rem.workspace_id).isEmpty
              && (getAggRooms rem.workspace_id).all (fun r => sendOk r rem))).map Reminder.id
    ∧ (check_and_notify pending getAggRooms sendOk).1
        = (pending.filter (fun rem =>
            !(getAggRooms rem.workspace_id).isEmpty
              && (getAggRooms rem.workspace_id).all (fun r => sendOk r rem))).length := by
  constructor
  · have := check_and_notify_foldl_spec getAggRooms sendOk pending (0, [], [])
    simpa [check_and_notify] using this
  · have := check_and_notify_count_spec getAggRooms sendOk pending (0, [], [])
    simpa [check_and_notify] using this

end ReminderNotifier

namespace Sem

/-!
### Claim C10: the delivery admission gate

`AggregationNotifier.__init__` creates
`self._semaphore = asyncio.Semaphore(MAX_CONCURRENT_REQUESTS)`
(`src/bot/notifier.py`, lines 68–69) and every `_send_notification` body runs
inside `async with self._semaphore` (line 146).  The cooperative scheduler is
modelled as a labelled transition system over the phases of the delivery
tasks of one notifier: a task acquires the semaphore (only possible while
fewer than `MAX_CONCURRENT_REQUESTS` holders exist — `asyncio.Semaphore`
suspends the awaiting task otherwise) and releases it when its delivery
block exits.
-/

/-- The phase of one delivery task: not yet admitted (awaiting the
semaphore), holding a slot (delivery in flight), or finished. -/
inductive Phase where
  | waiting
  | inflight
  | done
deriving DecidableEq

/-- Number of deliveries currently in flight, i.e. semaphore holders. -/
def inflightCount (ts : List Phase) : Nat :=
  ts.countP (fun p => p == Phase.inflight)

/-- Transition labels: task `i` acquires the gate / releases it. -/
inductive Label where
  | acq (i : Nat)
  | rel (i : Nat)

/-- The scheduler's transitions.  `acquire` models `async with
self._semaphore` admitting a suspended task: it fires only when a slot is
free (`inflightCount ts < Notifier.MAX_CONCURRENT_REQUESTS`).  `release`
models the end of the `async with` block (on success or exception). -/
inductive SemStep : List Phase → Label → List Phase → Prop where
  | acquire (ts : List Phase) (i : Nat)
      (h : ts.get? i = some .waiting)
      (hfree : inflightCount ts < Notifier.MAX_CONCURRENT_REQUESTS) :
      SemStep ts (.acq i) (ts.set i .inflight)
  | release (ts : List Phase) (i : Nat)
      (h : ts.get? i = some .inflight) :
      SemStep ts (.rel i) (ts.set i .done)

/-- States reachable from an initial state in which every delivery task is
still awaiting admission. -/
inductive Reachable : List Phase → Prop where
  | init (ts : List Phase) (h : ∀ p ∈ ts, p = Phase.waiting) : Reachable ts
  | step (s t : List Phase) (l : Label) (hs : Reachable s) (hst : SemStep s l t) : Reachable t

theorem countP_set_of_get (q : Phase → Bool) :
    ∀ (l : List Phase) (i : Nat) (a b : Phase), l.get? i = some a →
      (l.set i b).countP q + (if q a then 1 else 0) = l.countP q + (if q b then 1 else 0) := by
  intro l
  induction l with
  | nil => intro i a b h; simp at h
  | cons x t ih =>
    intro i a b h
    cases i with
    | zero =>
      have hx : x = a := by simpa using h
      subst hx
      simp only [List.set_cons_zero, List.countP_cons]
      omega
    | succ j =>
      have h' : t.get? j = some a := by simpa using h
      simp only [List.set_cons_succ, List.countP_cons]
      have := ih j a b h'
      omega

/-- Claim C10: in every reachable scheduler state, at most
`MAX_CONCURRENT_REQUESTS = 5` deliveries are in flight simultaneously, and an
acquire transition can only fire from a state with a free slot — a delivery
attempt made while the gate is full stays suspended (no transition admits it)
until a release frees a slot. -/
theorem semaphore_bounds_inflight (s : List Phase) (hs : Reachable s) :
    inflightCount s ≤ Notifier.MAX_CONCURRENT_REQUESTS
    ∧ (∀ (i : Nat) (t : List Phase), SemStep s (.acq i) t
        → inflightCount s < Notifier.MAX_CONCURRENT_REQUESTS) := by
  constructor
  · induction hs with
    | init ts h =>
      have : inflightCount ts = 0 := by
        unfold inflightCount
        rw [List.countP_eq_zero]
        intro p hp
        rw [h p hp]
        decide
      omega
    | step s t l hsr hst ih =>
      cases hst with
      | acquire i h hfree =>
        have hc := countP_set_of_get (fun p => p == Phase.inflight) s i .waiting .inflight h
        unfold inflightCount at *
        simp only [show ((Phase.waiting == Phase.inflight) = false) from rfl,
          show ((Phase.inflight == Phase.inflight) = true) from rfl] at hc
        simp only [if_pos trivial, if_neg Bool.false_ne_true] at hc
        omega
      | release i h =>
        have hc := countP_set_of_get (fun p => p == Phase.inflight) s i .inflight .done h
        unfold inflightCount at *
        simp only [show ((Phase.done == Phase.inflight) = false) from rfl,
          show ((Phase.inflight == Phase.inflight) = true) from rfl] at hc
        simp only [if_pos trivial, if_neg Bool.false_ne_true] at hc
        omega
  · intro i t hstep
    cases hstep with
    | acquire _ h hfree => exact hfree

/-- Claim C10, theorem at a concrete reachable state: two delivery tasks,
one already admitted through the gate. -/
theorem semaphore_bounds_inflight_witness :
    inflightCount [Phase.inflight, Phase.waiting] ≤ Notifier.MAX_CONCURRENT_REQUESTS :=
  (semaphore_bounds_inflight [Phase.inflight, Phase.waiting]
    (Reachable.step [Phase.waiting, Phase.waiting] _ (.acq 0)
      (Reachable.init [Phase.waiting, Phase.waiting] (by decide))
      (show SemStep [Phase.waiting, Phase.waiting] (.acq 0)
          ([Phase.waiting, Phase.waiting].set 0 .inflight) from
        SemStep.acquire [Phase.waiting, Phase.waiting] 0 (by decide) (by decide)))).1

end Sem
